import Mathlib

/-!
Verification of the R-Farm remote-render system: a Blender add-on client
(`src/blender_addon/__init__.py`) that submits a scene to a Cloud Run render
worker (`src/cloud_run/app.py`), tracks the job through a thread-safe progress
queue drained by a timer-driven poller, and a server-side dispatcher that
materializes the input, invokes the external render tool and extracts the
output path from the tool's combined log stream.

The embedding below translates the relevant Python functions into executable
Lean definitions.  Machine-level concerns are modelled as follows: HTTP calls,
the filesystem, JSON parsing by the standard library and the subprocess are
oracles supplied through environment records; timestamps are natural numbers;
Python truthiness of optional strings is `optTruthy` (absent and the empty
string are both falsy); byte strings are lists of naturals.
-/

set_option maxHeartbeats 1000000

namespace RFarm

/-- Python truthiness of an `Optional[str]`: `None` and `""` are falsy. -/
def optTruthy : Option String → Bool
  | none => false
  | some s => !(s == "")

/-- Does the first list occur at the front of the second? -/
def frontMatches : List Char → List Char → Bool
  | [], _ => true
  | _ :: _, [] => false
  | a :: as, b :: bs => (a == b) && frontMatches as bs

/-- Does `needle` occur as a contiguous segment of the second list?
Models Python's `in` test on strings. -/
def containsSeg (needle : List Char) : List Char → Bool
  | [] => needle.isEmpty
  | c :: rest => frontMatches needle (c :: rest) || containsSeg needle rest

/-- Models Python's `str.startswith`. -/
def pyStartsWith (s pre : String) : Bool :=
  frontMatches pre.data s.data

/-- Split a character list at every occurrence of `sep`
(the result is never empty, like Python's `str.split(sep)`). -/
def splitOnChar (sep : Char) : List Char → List (List Char)
  | [] => [[]]
  | c :: rest =>
    if c == sep then [] :: splitOnChar sep rest
    else
      match splitOnChar sep rest with
      | [] => [[c]]
      | l :: ls => (c :: l) :: ls

/-- Split a string at every occurrence of the character `sep`. -/
def splitStr (sep : Char) (s : String) : List String :=
  (splitOnChar sep s.data).map fun l => String.mk l

/-- Join strings with a separator (Python's `sep.join`). -/
def joinWith (sep : String) : List String → String
  | [] => ""
  | [x] => x
  | x :: y :: xs => x ++ sep ++ joinWith sep (y :: xs)

/-- Models Python's `str.splitlines` for newline-separated text:
`""` has no lines and a trailing newline does not produce an empty final
line. -/
def pyLines (s : String) : List String :=
  if s == "" then []
  else
    let parts := splitStr '\n' s
    if parts.getLastD "" == "" then parts.dropLast else parts

/-- Models Python's slice `s[-n:]`: the last `n` characters of `s`
(all of `s` when it is shorter). -/
def takeRightStr (s : String) (n : Nat) : String :=
  String.mk (s.data.drop (s.data.length - n))

/-- `pathlib` name of a path string: the component after the last slash. -/
def pathName (p : String) : String :=
  (splitStr '/' p).getLastD ""

/-- `pathlib` parent of a path string. -/
def pathParent (p : String) : String :=
  match (splitStr '/' p).dropLast with
  | [] => "."
  | ps => joinWith "/" ps

/-- `pathlib` suffix of a path without the leading dot
(`Path(p).suffix.lstrip(".")`): the extension after the last dot of the
name, empty for a dotless or purely dot-led name. -/
def fileExt (p : String) : String :=
  match splitOnChar '.' (pathName p).data with
  | [] => ""
  | [_] => ""
  | first :: rest =>
    if first.isEmpty && rest.length == 1 then ""
    else String.mk (rest.getLastD [])

/-- ASCII lower-casing of one character (models `str.lower` on the
ASCII format names appearing in this system). -/
def lowerChar (c : Char) : Char :=
  if 'A' ≤ c ∧ c ≤ 'Z' then Char.ofNat (c.toNat + 32) else c

/-- ASCII upper-casing of one character. -/
def upperChar (c : Char) : Char :=
  if 'a' ≤ c ∧ c ≤ 'z' then Char.ofNat (c.toNat - 32) else c

/-- ASCII `str.lower`. -/
def strLower (s : String) : String := String.mk (s.data.map lowerChar)

/-- ASCII `str.upper`. -/
def strUpper (s : String) : String := String.mk (s.data.map upperChar)

/-- The base64 alphabet, as in RFC 4648 (used by Python's
`base64.b64encode`). -/
def b64Alphabet : List Char :=
  "ABCDEFGHIJKLMNOPQRSTUVWXYZabcdefghijklmnopqrstuvwxyz0123456789+/".data

/-- Character of the base64 alphabet at index `i`. -/
def b64Char (i : Nat) : Char := b64Alphabet.getD i 'A'

/-- Standard base64 encoding of a byte list, three bytes to four
characters with `=` padding (Python's `base64.b64encode`). -/
def b64EncodeGroups : List Nat → List Char
  | [] => []
  | [a] =>
    [b64Char (a / 4), b64Char (a % 4 * 16), '=', '=']
  | [a, b] =>
    [b64Char (a / 4), b64Char (a % 4 * 16 + b / 16), b64Char (b % 16 * 4), '=']
  | a :: b :: c :: rest =>
    b64Char (a / 4) :: b64Char (a % 4 * 16 + b / 16) ::
      b64Char (b % 16 * 4 + c / 64) :: b64Char (c % 64) :: b64EncodeGroups rest

/-- `base64.b64encode(bytes).decode("ascii")`. -/
def b64encode (bytes : List Nat) : String := String.mk (b64EncodeGroups bytes)

/-! ## Client: upload negotiation (`blender_addon/__init__.py`) -/

/-- Outcome of `_request_upload_url`: the 404 answer raises
`UploadURLNotSupported`, any other 4xx/5xx answer or a malformed grant body
raises `RuntimeError`, and a valid grant yields the pair
`(upload_url, gcs_uri)`. -/
inductive UploadUrlOutcome where
  | notSupported
  | failed (msg : String)
  | granted (uploadUrl gcsUri : String)
  deriving Repr, DecidableEq

/-- `_request_upload_url(endpoint, auth_token, blend_path)`, as a function of
the grant endpoint's response: its status code, its raw text, and its JSON
body (`none` when the body is not valid JSON; the two fields are
`upload_url` and `gcs_uri`, each `none` when absent). -/
def _request_upload_url (status : Nat) (text : String)
    (body : Option (Option String × Option String)) : UploadUrlOutcome :=
  if status == 404 then .notSupported
  else if 400 ≤ status then
    .failed ("Failed to request upload URL: HTTP " ++ toString status ++ " " ++ text)
  else
    match body with
    | none => .failed "Upload URL response was not valid JSON"
    | some (u, g) =>
      if !optTruthy u || !optTruthy g then
        .failed "Upload URL response missing required fields"
      else .granted (u.getD "") (g.getD "")

/-- The headers sent by `_upload_blend_to_gcs`: a fixed content type and the
payload's exact byte length as `Content-Length`. -/
def uploadHeaders (size : Nat) : List (String × String) :=
  [("Content-Type", "application/octet-stream"), ("Content-Length", toString size)]

/-- `_upload_blend_to_gcs(upload_url, blend_path)`, as a function of the
payload size and the PUT response status: the transfer succeeds exactly when
the status is 200 or 201, and any other status raises `RuntimeError`. -/
def _upload_blend_to_gcs (_size status : Nat) : Except String Unit :=
  if status == 200 || status == 201 then .ok ()
  else .error ("Upload to Cloud Storage failed: HTTP " ++ toString status)

/-- The two optional input fields of the render request body built by
`_build_payload` (the copied base settings fields are not relevant to the
claims and are omitted). -/
structure RenderPayload where
  blend_gcs_uri : Option String
  blend_file : Option String
  deriving Repr, DecidableEq

/-- `_build_payload(base_payload, blend_gcs_uri, blend_inline)`: each field is
added to the request body only when its value is truthy. -/
def _build_payload (gcs inline : Option String) : RenderPayload :=
  { blend_gcs_uri := if optTruthy gcs then gcs else none
    blend_file := if optTruthy inline then inline else none }

/-! ## Client: background job runner (`_run_remote_render_job`) -/

/-- An event pushed onto the job's progress queue. -/
inductive JEvent where
  | log (msg : String)
  | resultSuccess (jobId outputPath : String)
  | resultError (msg : String)
  deriving Repr, DecidableEq

/-- An observable action of the worker thread: pushing an event onto the
progress queue, or removing the temporary working directory. -/
inductive Action where
  | put (e : JEvent)
  | rmtree
  deriving Repr, DecidableEq

/-- The JSON body of the render response as read by the runner (`none` fields
model absent keys). -/
structure RenderRespBody where
  job_id : Option String
  image_base64 : Option String
  output_format : Option String
  deriving Repr, DecidableEq

/-- Environment of one run of the background job runner: the availability of
the `requests` module, the grant endpoint's response, the blob PUT status,
the payload file's bytes, the render endpoint's response, the outcomes of
base64-decoding and of writing the artifact, and the configured paths. -/
structure RunEnv where
  requestsAvailable : Bool
  grantStatus : Nat
  grantText : String
  grantBody : Option (Option String × Option String)
  uploadStatus : Nat
  blendBytes : List Nat
  renderStatus : Nat
  renderText : String
  renderBody : Option RenderRespBody
  imageDecodeOk : Bool
  writeOk : Bool
  outputPathStr : String
  fallbackDir : String
  deriving Repr

/-- What one run of the runner produced: its ordered trace of observable
actions, the render request body it built (`none` when it failed before
building one), and the exception it caught at top level, if any. -/
structure RunOutcome where
  trace : List Action
  builtPayload : Option RenderPayload
  raised : Option String
  deriving Repr

/-- The runner's `except`/`finally` epilogue: a caught exception is logged and
converted to a terminal failure event, and the temporary directory is removed
last on every path. -/
def runnerFinish (evs : List JEvent) (pl : Option RenderPayload)
    (raised : Option String) : RunOutcome :=
  let evs :=
    match raised with
    | none => evs
    | some msg => evs ++ [JEvent.log ("Error: " ++ msg), JEvent.resultError msg]
  { trace := evs.map Action.put ++ [Action.rmtree], builtPayload := pl, raised := raised }

/-- The upload negotiation of the runner (lines 310–324): request a grant;
on 404 fall back to the inline base64 payload, on a grant upload the blob,
on any other failure raise.  Returns the log events emitted and either the
pair `(gcs_uri, blend_inline)` or the raised message. -/
def negotiationPhase (env : RunEnv) :
    List JEvent × Except String (Option String × Option String) :=
  let evs := [JEvent.log "Requesting upload URL from R-Farm service"]
  match _request_upload_url env.grantStatus env.grantText env.grantBody with
  | .failed msg => (evs, .error msg)
  | .granted _ g =>
    let evs := evs ++ [JEvent.log "Upload URL received, uploading .blend file"]
    match _upload_blend_to_gcs env.blendBytes.length env.uploadStatus with
    | .error msg => (evs, .error msg)
    | .ok _ =>
      (evs ++ [JEvent.log "Blend file uploaded successfully"], .ok (some g, none))
  | .notSupported =>
    let evs := evs ++
      [JEvent.log "Service does not support upload URLs, embedding .blend file in request"]
    (evs, .ok (none, some (b64encode env.blendBytes)))

/-- The submission half of the runner (lines 325–378): POST the body, decode
the response, persist the artifact and push the terminal success event.
Returns the events emitted after the negotiation and the raised message, if
any. -/
def submissionPhase (env : RunEnv) : List JEvent × Option String :=
  let evs := [JEvent.log "Submitting render request to R-Farm service",
              JEvent.log ("Service responded with HTTP " ++ toString env.renderStatus)]
  if 400 ≤ env.renderStatus then
    (evs, some ("HTTP " ++ toString env.renderStatus ++ ": " ++ env.renderText))
  else
    match env.renderBody with
    | none => (evs, some "Invalid JSON response")
    | some body =>
      let jobId := body.job_id.getD ""
      let remoteFormat := body.output_format.getD "PNG"
      if !optTruthy body.image_base64 then (evs, some "Response missing image data")
      else if !env.imageDecodeOk then (evs, some "Invalid base64-encoded string")
      else if !env.writeOk then (evs, some "write failed")
      else
        let finalPath :=
          if env.outputPathStr == "" then
            env.fallbackDir ++ "/" ++ ("rfarm_frame." ++ strLower remoteFormat)
          else env.outputPathStr
        (evs ++
          [JEvent.log ("Result saved to " ++ pathParent finalPath ++
            " (" ++ pathName finalPath ++ ")"),
           JEvent.resultSuccess jobId finalPath], none)

/-- `_run_remote_render_job(job_args)`: the whole worker body under its
top-level `try`/`except`/`finally`. -/
def _run_remote_render_job (env : RunEnv) : RunOutcome :=
  if !env.requestsAvailable then
    runnerFinish [] none
      (some "Python module 'requests' is required. Install it in Blender's Python environment.")
  else
    match negotiationPhase env with
    | (evs1, .error msg) => runnerFinish evs1 none (some msg)
    | (evs1, .ok gi) =>
      runnerFinish (evs1 ++ (submissionPhase env).1)
        (some (_build_payload gi.1 gi.2)) (submissionPhase env).2

/-! ## Client: status state, progress queue and poller
(`RFarmStatus`, `_append_log_entry`, `_process_remote_job_queue`) -/

/-- The durable per-scene status written by the poller (`RFarmStatus`).
Timestamps are naturals; `0` models the unset float `0.0`. -/
structure Status where
  last_job_id : String
  last_output_path : String
  is_rendering : Bool
  last_error : String
  log_entries : List (Nat × String)
  log_index : Nat
  start_timestamp : Nat
  finish_timestamp : Nat
  deriving Repr, DecidableEq

/-- The freshly-registered scene status (all property defaults). -/
def Status.init : Status :=
  { last_job_id := "", last_output_path := "", is_rendering := false
    last_error := "", log_entries := [], log_index := 0
    start_timestamp := 0, finish_timestamp := 0 }

/-- The payload dict of a `result` event, as read by the poller via `.get`. -/
structure ResultPayload where
  status : String
  job_id : Option String
  output_path : Option String
  error : Option String
  deriving Repr, DecidableEq

/-- An event on the progress queue: `("log", timestamp, message)` or
`("result", timestamp, payload)`. -/
inductive QEvent where
  | log (ts : Nat) (msg : String)
  | result (ts : Nat) (payload : ResultPayload)
  deriving Repr, DecidableEq

/-- Is the event a `result` event? -/
def QEvent.isResult : QEvent → Bool
  | .log _ _ => false
  | .result _ _ => true

/-- `_append_log_entry(status, message, timestamp)`: append one entry (a
falsy timestamp is replaced by the current time `now`) and point the UI index
at it. -/
def _append_log_entry (st : Status) (msg : String) (ts now : Nat) : Status :=
  let entries := st.log_entries ++ [(if ts == 0 then now else ts, msg)]
  { st with log_entries := entries, log_index := entries.length - 1 }

/-- The drain loop of `_process_remote_job_queue`: pop every queued event in
FIFO order; a `log` event appends to `log_entries`, a `result` event records
the terminal fields, clears `is_rendering` and sets the job's done flag. -/
def drainLoop (now : Nat) : List QEvent → Status → Bool → Status × Bool
  | [], st, done => (st, done)
  | QEvent.log ts msg :: rest, st, done =>
    drainLoop now rest (_append_log_entry st msg ts now) done
  | QEvent.result ts payload :: rest, st, done =>
    let st := { st with finish_timestamp := ts }
    let st :=
      if payload.status == "success" then
        { st with last_error := "", last_job_id := payload.job_id.getD ""
                  last_output_path := payload.output_path.getD "" }
      else
        { st with last_job_id := "", last_output_path := ""
                  last_error := payload.error.getD "Unknown error" }
    drainLoop now rest { st with is_rendering := false } (done || true)

/-- The last `result` event of a queue, the one whose fields survive the
drain. -/
def lastResult : List QEvent → Option (Nat × ResultPayload)
  | [] => none
  | QEvent.log _ _ :: rest => lastResult rest
  | QEvent.result ts p :: rest =>
    match lastResult rest with
    | none => some (ts, p)
    | some r => some r

/-- The log entry an event contributes during a drain at time `now`. -/
def logEntryOf (now : Nat) : QEvent → Option (Nat × String)
  | .log ts msg => some ((if ts == 0 then now else ts), msg)
  | .result _ _ => none

/-! ## Client: job registry and submission
(`ACTIVE_RENDER_JOBS`, `RFarm_OT_render_frame.execute`) -/

/-- One registry entry: the job's progress queue and its done flag (the
thread handle is modelled by the `threads` counter of `SysState`). -/
structure JobEntry where
  queue : List QEvent
  done : Bool
  deriving Repr, DecidableEq

/-- The state shared between the submission path, the worker and the poller,
for one owner key: the scene status, the registry entry for that key (if
any), and the number of worker threads ever started. -/
structure SysState where
  status : Status
  entry : Option JobEntry
  threads : Nat
  deriving Repr, DecidableEq

/-- The initial state: default status, no registry entry, no workers. -/
def SysState.init : SysState :=
  { status := Status.init, entry := none, threads := 0 }

/-- The environment of one call to `RFarm_OT_render_frame.execute`: the
outcomes of its preflight checks and of saving the scene to the temporary
directory. -/
structure SubmitEnv where
  requestsOk : Bool
  endpoint : String
  engineIsCycles : Bool
  saveOk : Bool
  saveErr : String
  deriving Repr, DecidableEq

/-- The operator's result, distinguished by the message it reports. -/
inductive SubmitResult where
  | alreadyRunning
  | cancelled
  | finished
  deriving Repr, DecidableEq

/-- `RFarm_OT_render_frame.execute(context)`: reject while a render is
already running; then the preflight checks, each recording an error; on
success reset the status, create the registry entry and start the worker
thread. -/
def executeSubmit (env : SubmitEnv) (now : Nat) (s : SysState) :
    SubmitResult × SysState :=
  if s.status.is_rendering then (.alreadyRunning, s)
  else if !env.requestsOk then
    (.cancelled, { s with status := { s.status with last_error :=
      "Python module 'requests' is required. Install it in Blender's Python environment." } })
  else if env.endpoint == "" then
    (.cancelled, { s with status := { s.status with last_error :=
      "Cloud Run endpoint not configured" } })
  else if !env.engineIsCycles then
    (.cancelled, { s with status := { s.status with last_error :=
      "Render engine must be Cycles" } })
  else if !env.saveOk then
    (.cancelled, { s with status := { s.status with last_error := env.saveErr } })
  else
    let st := { s.status with
      is_rendering := true, last_error := ""
      last_output_path := "", last_job_id := "", start_timestamp := now
      finish_timestamp := 0, log_entries := [], log_index := 0 }
    let st := _append_log_entry st "Remote render job initialised" 0 now
    (.finished, { status := st, entry := some { queue := [], done := false }
                  threads := s.threads + 1 })

/-- One poller invocation (`_process_remote_job_queue` plus the registry
removal): drain the queue into the status and drop the entry once it is done
and its queue is empty. -/
def pollState (now : Nat) (s : SysState) : SysState :=
  match s.entry with
  | none => s
  | some e =>
    let r := drainLoop now e.queue s.status e.done
    if r.2 then { s with status := r.1, entry := none }
    else { s with status := r.1, entry := some { queue := [], done := r.2 } }

/-- The interleaved steps of the system: a submission attempt, the worker
enqueuing an event, a poller invocation, or the owning scene disappearing
(which makes the timer callback drop the registry entry). -/
inductive SysStep : SysState → SysState → Prop
  | submit (env : SubmitEnv) (now : Nat) (s : SysState) :
      SysStep s (executeSubmit env now s).2
  | workerPut (s : SysState) (e : JobEntry) (ev : QEvent) (h : s.entry = some e) :
      SysStep s { s with entry := some { queue := e.queue ++ [ev], done := e.done } }
  | poll (now : Nat) (s : SysState) : SysStep s (pollState now s)
  | sceneGone (s : SysState) : SysStep s { s with entry := none }

/-- States reachable from the freshly-registered add-on state. -/
def Reachable (s : SysState) : Prop :=
  Relation.ReflTransGen SysStep SysState.init s

/-! ## Server: log-line result extraction (`_run_blender`, lines 228–236)

`json.loads` is standard-library code; its outcome on one line is modelled by
`JsonLine`: a parse failure (`JSONDecodeError`), a JSON object, a JSON array,
a JSON string, or any other JSON value (`null`, a number, a boolean).  The
`in` test and the subscript of the Python source are then given their actual
semantics on each of these results; `TypeError`s they raise are *not* caught
by the `except json.JSONDecodeError` handler. -/

/-- A JSON value as far as the extractor looks at it: a string, or anything
else (`Path(value)` raises `TypeError` on a non-string). -/
inductive JsonVal where
  | vstr (s : String)
  | vother
  deriving Repr, DecidableEq

/-- The outcome of `json.loads` on one log line. -/
inductive JsonLine where
  | malformed
  | jobj (fields : List (String × JsonVal))
  | jlist (elems : List JsonVal)
  | jstr (chars : List Char)
  | jother
  deriving Repr, DecidableEq

/-- One iteration of the extraction loop on a parsed line: `ok none`
continues the scan, `ok (some p)` stops with path `p`, and `error ()` is an
uncaught `TypeError` (from `"output_path" in payload` on a non-container, or
from subscripting a list or string, or from `Path` applied to a non-string
value). -/
def lineStep : JsonLine → Except Unit (Option String)
  | .malformed => .ok none
  | .jobj fields =>
    match fields.lookup "output_path" with
    | none => .ok none
    | some (JsonVal.vstr s) => .ok (some s)
    | some JsonVal.vother => .error ()
  | .jlist elems =>
    if elems.contains (JsonVal.vstr "output_path") then .error () else .ok none
  | .jstr chars =>
    if containsSeg "output_path".data chars then .error () else .ok none
  | .jother => .error ()

/-- The extraction loop of `_run_blender`: scan the parsed lines in order,
skipping parse failures, and stop at the first line containing an
`output_path` field. -/
def extractOutputPath : List JsonLine → Except Unit (Option String)
  | [] => .ok none
  | l :: rest =>
    match lineStep l with
    | .error _ => .error ()
    | .ok (some p) => .ok (some p)
    | .ok none => extractOutputPath rest

/-! ## Server: execution dispatcher (`app.py`) -/

/-- A failure of the dispatcher: an `HTTPException(status, detail)`, or an
exception that escapes the handler uncaught (surfaced by the framework as an
internal server error). -/
inductive ServerFailure where
  | http (status : Nat) (detail : String)
  | uncaught (msg : String)
  deriving Repr, DecidableEq

/-- What `_run_blender` returns on success. -/
structure BlenderResult where
  output_path : String
  image_base64 : String
  logs : String
  deriving Repr, DecidableEq

/-- The environment of one `_run_blender` call: the subprocess's exit code
and captured combined stdout+stderr, the `json.loads` outcome on each line,
and the filesystem oracles consulted afterwards. -/
structure BlenderEnv where
  rc : Int
  logs : String
  parse : String → JsonLine
  pathExists : String → Bool
  readBytes : String → List Nat

/-- `_run_blender(blend_path, request)`: a non-zero exit code fails with the
last 2000 characters of the log; otherwise the extractor locates the output
path, whose absence or non-existence on disk fails with 500; on success the
artifact is read and base64-encoded. -/
def _run_blender (env : BlenderEnv) : Except ServerFailure BlenderResult :=
  if env.rc ≠ 0 then
    .error (.http 500 ("Blender failed: " ++ takeRightStr env.logs 2000))
  else
    match extractOutputPath ((pyLines env.logs).map env.parse) with
    | .error _ => .error (.uncaught "TypeError")
    | .ok none => .error (.http 500 "Render worker did not produce output")
    | .ok (some p) =>
      if env.pathExists p then
        .ok { output_path := p, image_base64 := b64encode (env.readBytes p)
              logs := env.logs }
      else .error (.http 500 "Render worker did not produce output")

/-- Split a string at the first slash, as `path.split("/", 1)` followed by a
two-element unpacking: `none` models the `ValueError` of unpacking a
slash-less path. -/
def splitFirstSlash (s : String) : Option (String × String) :=
  match splitStr '/' s with
  | [] => none
  | [_] => none
  | b :: rest => some (b, joinWith "/" rest)

/-- `_parse_gcs_uri(gcs_uri)`: require the `gs://` scheme, split off the
bucket, and reject an empty bucket or object name, each with a 400. -/
def _parse_gcs_uri (gcsUri : String) : Except ServerFailure (String × String) :=
  if !pyStartsWith gcsUri "gs://" then .error (.http 400 "Invalid GCS URI")
  else
    match splitFirstSlash (String.mk (gcsUri.data.drop 5)) with
    | none => .error (.http 400 "Invalid GCS URI")
    | some (bucket, blob) =>
      if bucket == "" || blob == "" then .error (.http 400 "Invalid GCS URI")
      else .ok (bucket, blob)

/-- The environment of one dispatcher request: the `_run_blender`
environment, the object-store download outcomes, the outcome of decoding the
inline payload, and the generated job id. -/
structure ServerEnv where
  blender : BlenderEnv
  downloadApiOk : Bool
  downloadProduces : Bool
  inlineDecodeOk : Bool
  jobId : String

/-- `_download_blend_from_gcs(tmp_dir, gcs_uri)`: parse the URI, then a
`GoogleAPIError` from the store maps to 502 and a missing destination file to
500. -/
def _download_blend_from_gcs (gcsUri : String) (env : ServerEnv) :
    Except ServerFailure Unit :=
  match _parse_gcs_uri gcsUri with
  | .error e => .error e
  | .ok _ =>
    if !env.downloadApiOk then
      .error (.http 502 "Failed to download blend file: upstream error")
    else if !env.downloadProduces then .error (.http 500 "Blend download failed")
    else .ok ()

/-- The response body of a successful `/render` call. -/
structure RenderResponseBody where
  job_id : String
  image_base64 : String
  output_format : String
  output_path : String
  logs : String
  deriving Repr, DecidableEq

/-- The tail of `render_endpoint` once an input file exists: run the tool and
assemble the response, inferring the output format from the produced file's
extension, else the requested format, else `"PNG"`. -/
def runBlenderAndRespond (env : ServerEnv) (requestedFormat : Option String) :
    Except ServerFailure RenderResponseBody :=
  match _run_blender env.blender with
  | .error e => .error e
  | .ok r =>
    let ext := strUpper (fileExt r.output_path)
    let fmt :=
      if ext != "" then ext
      else if optTruthy requestedFormat then requestedFormat.getD "" else "PNG"
    .ok { job_id := env.jobId, image_base64 := r.image_base64
          output_format := fmt, output_path := r.output_path, logs := r.logs }

/-- `render_endpoint(request)` (lines 249–277): resolve the input payload —
the blob reference when truthy, else the inline payload when truthy, else a
400 — then dispatch to the render tool.  An invalid inline base64 raises an
uncaught `binascii.Error`. -/
def render_endpoint (blendGcsUri blendFile : Option String)
    (requestedFormat : Option String) (env : ServerEnv) :
    Except ServerFailure RenderResponseBody :=
  if optTruthy blendGcsUri then
    match _download_blend_from_gcs (blendGcsUri.getD "") env with
    | .error e => .error e
    | .ok _ => runBlenderAndRespond env requestedFormat
  else if optTruthy blendFile then
    if env.inlineDecodeOk then runBlenderAndRespond env requestedFormat
    else .error (.uncaught "binascii.Error")
  else .error (.http 400 "Missing blend file reference")

/-! ## Helper lemmas -/

/-- A nonempty byte list has a nonempty base64 encoding. -/
theorem b64encode_ne_empty {bytes : List Nat} (h : bytes ≠ []) :
    b64encode bytes ≠ "" := by
  intro he
  have hd : b64EncodeGroups bytes = [] := congrArg String.data he
  match bytes, h, hd with
  | [a], _, hd => exact nomatch hd
  | [a, b], _, hd => exact nomatch hd
  | a :: b :: c :: rest, _, hd => exact nomatch hd

/-- The Python tail slice keeps at most `n` characters. -/
theorem takeRightStr_length_le (s : String) (n : Nat) :
    (takeRightStr s n).length ≤ n := by
  show (s.data.drop (s.data.length - n)).length ≤ n
  rw [List.length_drop]
  omega

/-- The Python tail slice is a suffix of the whole text. -/
theorem takeRightStr_suffix (s : String) (n : Nat) :
    (takeRightStr s n).data <:+ s.data :=
  List.drop_suffix _ _

/-- The Python tail slice keeps everything when the text is short enough. -/
theorem takeRightStr_of_le (s : String) (n : Nat) (h : s.length ≤ n) :
    takeRightStr s n = s := by
  have : s.data.length - n = 0 := by
    have : s.data.length ≤ n := h
    omega
  show String.mk (s.data.drop (s.data.length - n)) = s
  rw [this, List.drop_zero]

/-! ## C8 — blob transfer headers and its success condition -/

/-- C8 counterexample: the claim says the transfer is treated as successful
exactly when the response status is any 2xx code, but the code treats the
2xx status 204 as a hard failure. -/
theorem c8_counterexample :
    (200 ≤ 204 ∧ 204 < 300) ∧
      _upload_blend_to_gcs 5 204 =
        .error "Upload to Cloud Storage failed: HTTP 204" :=
  ⟨by omega, rfl⟩

/-- C8 (amended): the blob transfer sends `Content-Type:
application/octet-stream` and the payload's exact byte length as
`Content-Length`, and is treated as successful exactly when the response
status is 200 or 201; any other status (2xx included) is a hard failure. -/
theorem c8_upload_amended (size status : Nat) :
    uploadHeaders size =
      [("Content-Type", "application/octet-stream"),
       ("Content-Length", toString size)] ∧
    (_upload_blend_to_gcs size status = .ok () ↔ (status = 200 ∨ status = 201)) := by
  refine ⟨rfl, ?_⟩
  unfold _upload_blend_to_gcs
  constructor
  · intro h
    by_cases h200 : status = 200
    · exact Or.inl h200
    · by_cases h201 : status = 201
      · exact Or.inr h201
      · rw [if_neg (by simp [h200, h201])] at h
        exact absurd h (by simp)
  · intro h
    rcases h with h | h <;> rw [h] <;> rfl

/-! ## C7 — log-line result extraction -/

/-- C7 counterexample: the claim says the extractor returns the
`output_path` of the first successfully parsed line containing that field
for every captured text, but a preceding line that parses to a
non-container JSON value (e.g. the line `null`, which `json.loads` accepts)
makes `"output_path" in payload` raise an uncaught `TypeError`, aborting
the scan instead of returning the path of the later valid line. -/
theorem c7_counterexample :
    extractOutputPath
        [JsonLine.jother,
         JsonLine.jobj [("output_path", JsonVal.vstr "/render/out.png")]] =
      .error () ∧
    extractOutputPath
        [JsonLine.jother,
         JsonLine.jobj [("output_path", JsonVal.vstr "/render/out.png")]] ≠
      .ok (some "/render/out.png") :=
  ⟨rfl, fun h => nomatch h⟩

/-- C7 (amended): every line that fails to parse as JSON is silently
skipped without aborting the scan; the scan likewise passes over every
earlier line on which the membership test is defined and negative — a
parsed JSON object without an `output_path` key, a parsed array not
containing the string `"output_path"`, or a parsed string not containing
it as a substring (these are exactly the lines with `lineStep l = ok
none`) — and returns the `output_path` of the first parsed JSON-object
line with a string `output_path` field, stopping there, whatever follows.
Any other earlier line aborts the scan with an uncaught `TypeError`: a
line parsing to a bare JSON value (`null`, a number, a boolean), an array
or string containing `"output_path"` (the subsequent subscript fails), or
an object whose `output_path` value is not a string (`Path(None)` fails
on `{"output_path": null}`).  In particular, for a stream of N non-JSON
lines before and after a single valid `output_path` line, the extractor
returns that path for every N. -/
theorem c7_extractor_amended (pre post : List JsonLine) (p : String)
    (hpre : ∀ l ∈ pre, lineStep l = .ok none) :
    extractOutputPath
        (pre ++ JsonLine.jobj [("output_path", JsonVal.vstr p)] :: post) =
      .ok (some p) := by
  induction pre with
  | nil => simp [extractOutputPath, lineStep, List.lookup]
  | cons l rest ih =>
    have hl : lineStep l = .ok none := hpre l (by simp)
    rw [List.cons_append]
    have hstep : extractOutputPath
        (l :: (rest ++ JsonLine.jobj [("output_path", JsonVal.vstr p)] :: post)) =
        extractOutputPath
          (rest ++ JsonLine.jobj [("output_path", JsonVal.vstr p)] :: post) := by
      rw [extractOutputPath, hl]
    rw [hstep]
    exact ih fun x hx => hpre x (by simp [hx])

/-- C7 witness: noise lines of every skippable kind — unparseable text, a
JSON object without the key, an array and a string not containing
`"output_path"` — before a valid result line, and an arbitrary line after
it. -/
theorem c7_witness :
    extractOutputPath
        ([JsonLine.malformed,
          JsonLine.jobj [("status", JsonVal.vstr "rendering")],
          JsonLine.jlist [JsonVal.vstr "frame"],
          JsonLine.jstr "Saved file".data,
          JsonLine.malformed] ++
          JsonLine.jobj [("output_path", JsonVal.vstr "/tmp/frame.png")] ::
          [JsonLine.jother]) =
      .ok (some "/tmp/frame.png") :=
  c7_extractor_amended
    [JsonLine.malformed,
     JsonLine.jobj [("status", JsonVal.vstr "rendering")],
     JsonLine.jlist [JsonVal.vstr "frame"],
     JsonLine.jstr "Saved file".data,
     JsonLine.malformed] [JsonLine.jother]
    "/tmp/frame.png"
    (by
      intro l hl
      simp only [List.mem_cons, List.not_mem_nil, or_false] at hl
      rcases hl with rfl | rfl | rfl | rfl | rfl <;> rfl)

/-! ## C6 — non-zero exit code of the render tool -/

/-- C6: when the external render tool exits with a non-zero code, the
dispatcher fails with an `HTTPException` of status 500 whose detail carries
the last 2000 characters of the captured combined output — a suffix of at
most 2000 characters. -/
theorem c6_nonzero_exit (env : BlenderEnv) (h : env.rc ≠ 0) :
    _run_blender env =
      .error (.http 500 ("Blender failed: " ++ takeRightStr env.logs 2000)) ∧
    (takeRightStr env.logs 2000).length ≤ 2000 ∧
    (takeRightStr env.logs 2000).data <:+ env.logs.data := by
  refine ⟨?_, takeRightStr_length_le _ _, takeRightStr_suffix _ _⟩
  unfold _run_blender
  rw [if_pos h]

/-- C6 witness: exit code 1 with a short captured log. -/
theorem c6_witness :
    _run_blender
        { rc := 1, logs := "Error: crash", parse := fun _ => JsonLine.malformed,
          pathExists := fun _ => false, readBytes := fun _ => [] } =
      .error (.http 500 ("Blender failed: " ++ takeRightStr "Error: crash" 2000)) ∧
    (takeRightStr "Error: crash" 2000).length ≤ 2000 ∧
    (takeRightStr "Error: crash" 2000).data <:+ "Error: crash".data :=
  c6_nonzero_exit
    { rc := 1, logs := "Error: crash", parse := fun _ => JsonLine.malformed,
      pathExists := fun _ => false, readBytes := fun _ => [] }
    (by decide)

/-! ## C5 — zero exit code with missing or nonexistent output -/

/-- C5: when the tool exits zero, a scan finding no `output_path` line, an
advertised path that does not exist, or a scan aborted by a malformed
result line all fail the request instead of returning success: the first
two with `HTTPException(500)`, the last with an uncaught error the
framework surfaces as a 500. -/
theorem c5_missing_output (env : BlenderEnv) (h0 : env.rc = 0) :
    (extractOutputPath ((pyLines env.logs).map env.parse) = .ok none →
      _run_blender env = .error (.http 500 "Render worker did not produce output")) ∧
    (∀ p, extractOutputPath ((pyLines env.logs).map env.parse) = .ok (some p) →
      env.pathExists p = false →
      _run_blender env = .error (.http 500 "Render worker did not produce output")) ∧
    (extractOutputPath ((pyLines env.logs).map env.parse) = .error () →
      _run_blender env = .error (.uncaught "TypeError")) := by
  refine ⟨?_, ?_, ?_⟩
  · intro hex
    unfold _run_blender
    rw [if_neg (by simp [h0]), hex]
  · intro p hex hne
    unfold _run_blender
    rw [if_neg (by simp [h0]), hex]
    simp [hne]
  · intro hex
    unfold _run_blender
    rw [if_neg (by simp [h0]), hex]

/-- C5 witness: exit code zero, a log whose lines all fail to parse, on a
filesystem where nothing exists. -/
theorem c5_witness :
    extractOutputPath
        ((pyLines "Fra:1 Mem:20M\nSaved out").map fun _ => JsonLine.malformed) =
      .ok none ∧
    _run_blender
        { rc := 0, logs := "Fra:1 Mem:20M\nSaved out",
          parse := fun _ => JsonLine.malformed,
          pathExists := fun _ => false, readBytes := fun _ => [] } =
      .error (.http 500 "Render worker did not produce output") :=
  ⟨rfl,
    (c5_missing_output
      { rc := 0, logs := "Fra:1 Mem:20M\nSaved out",
        parse := fun _ => JsonLine.malformed,
        pathExists := fun _ => false, readBytes := fun _ => [] } rfl).1 rfl⟩

/-! ## Runner trace helpers (for C1, C3, C4) -/

/-- Is the event a terminal `result` event of the runner? -/
def isResultEv : JEvent → Bool
  | .log _ => false
  | .resultSuccess _ _ => true
  | .resultError _ => true

/-- The result events a trace pushes onto the progress queue, in order. -/
def traceResults : List Action → List JEvent
  | [] => []
  | Action.put e :: rest =>
    if isResultEv e then e :: traceResults rest else traceResults rest
  | Action.rmtree :: rest => traceResults rest

/-- The result events of a `put`-trace are the result events of the pushed
events. -/
theorem traceResults_shape (evs : List JEvent) :
    traceResults (evs.map Action.put ++ [Action.rmtree]) = evs.filter isResultEv := by
  induction evs with
  | nil => rfl
  | cons e rest ih =>
    simp only [List.map_cons, List.cons_append, traceResults]
    cases he : isResultEv e <;> simp [he, List.filter_cons, ih]

/-- The epilogue keeps the caught exception. -/
theorem runnerFinish_raised (evs : List JEvent) (pl : Option RenderPayload)
    (r : Option String) : (runnerFinish evs pl r).raised = r := rfl

/-- The epilogue keeps the built payload. -/
theorem runnerFinish_payload (evs : List JEvent) (pl : Option RenderPayload)
    (r : Option String) : (runnerFinish evs pl r).builtPayload = pl := rfl

/-- Result events of the epilogue's trace: the body's result events,
followed by the failure event when an exception was caught. -/
theorem runnerFinish_results (evs : List JEvent) (pl : Option RenderPayload)
    (r : Option String) :
    traceResults (runnerFinish evs pl r).trace =
      evs.filter isResultEv ++
        (match r with | none => [] | some m => [JEvent.resultError m]) := by
  cases r with
  | none =>
    rw [show (runnerFinish evs pl none).trace
        = evs.map Action.put ++ [Action.rmtree] from rfl, traceResults_shape]
    simp
  | some m =>
    rw [show (runnerFinish evs pl (some m)).trace
        = (evs ++ [JEvent.log ("Error: " ++ m), JEvent.resultError m]).map Action.put
          ++ [Action.rmtree] from rfl,
      traceResults_shape, List.filter_append]
    rfl

/-- The epilogue's trace is a sequence of queue pushes followed by exactly
one removal of the temporary directory. -/
theorem runnerFinish_trace_shape (evs : List JEvent) (pl : Option RenderPayload)
    (r : Option String) :
    ∃ e : List JEvent,
      (runnerFinish evs pl r).trace = e.map Action.put ++ [Action.rmtree] := by
  cases r <;> exact ⟨_, rfl⟩

/-- The negotiation phase emits only log events. -/
theorem negotiation_logs (env : RunEnv) :
    (negotiationPhase env).1.filter isResultEv = [] := by
  unfold negotiationPhase
  cases _request_upload_url env.grantStatus env.grantText env.grantBody with
  | failed m => rfl
  | notSupported => rfl
  | granted u g =>
    cases _upload_blend_to_gcs env.blendBytes.length env.uploadStatus with
    | error m => rfl
    | ok u2 => rfl

/-- The submission phase emits only log events up to its single success
event, and no result event at all when it raises. -/
theorem submission_spec (env : RunEnv) :
    ((submissionPhase env).2 = none →
      ∃ j p, (submissionPhase env).1.filter isResultEv =
        [JEvent.resultSuccess j p]) ∧
    (∀ m, (submissionPhase env).2 = some m →
      (submissionPhase env).1.filter isResultEv = []) := by
  by_cases h400 : 400 ≤ env.renderStatus
  · refine ⟨fun h => ?_, fun m h => ?_⟩
    · exact absurd h (by simp [submissionPhase, if_pos h400])
    · simp [submissionPhase, if_pos h400, isResultEv]
  · cases hb : env.renderBody with
    | none =>
      refine ⟨fun h => ?_, fun m h => ?_⟩
      · exact absurd h (by simp [submissionPhase, if_neg h400, hb])
      · simp [submissionPhase, if_neg h400, hb, isResultEv]
    | some body =>
      by_cases himg : (!optTruthy body.image_base64) = true
      · refine ⟨fun h => ?_, fun m h => ?_⟩
        · exact absurd h (by simp [submissionPhase, if_neg h400, hb, himg])
        · simp [submissionPhase, if_neg h400, hb, himg, isResultEv]
      · by_cases hdec : (!env.imageDecodeOk) = true
        · refine ⟨fun h => ?_, fun m h => ?_⟩
          · exact absurd h
              (by simp [submissionPhase, if_neg h400, hb, himg, hdec])
          · simp [submissionPhase, if_neg h400, hb, himg, hdec, isResultEv]
        · by_cases hwr : (!env.writeOk) = true
          · refine ⟨fun h => ?_, fun m h => ?_⟩
            · exact absurd h
                (by simp [submissionPhase, if_neg h400, hb, himg, hdec, hwr])
            · simp [submissionPhase, if_neg h400, hb, himg, hdec, hwr,
                isResultEv]
          · refine ⟨fun h => ?_, fun m h => ?_⟩
            · have hred : (submissionPhase env).1.filter isResultEv =
                  [JEvent.resultSuccess (body.job_id.getD "")
                    (if env.outputPathStr == "" then
                      env.fallbackDir ++ "/" ++
                        ("rfarm_frame." ++ strLower (body.output_format.getD "PNG"))
                    else env.outputPathStr)] := by
                simp [submissionPhase, if_neg h400, hb, himg, hdec, hwr,
                  isResultEv]
              exact ⟨_, _, hred⟩
            · exact absurd h
                (by simp [submissionPhase, if_neg h400, hb, himg, hdec, hwr])

/-- A trace of queue pushes contains no directory removal. -/
theorem count_rmtree_puts (evs : List JEvent) :
    (evs.map Action.put).count Action.rmtree = 0 := by
  induction evs with
  | nil => rfl
  | cons e rest ih => simpa [List.count_cons] using ih

/-! ## C3 — guaranteed cleanup of the temporary directory -/

/-- C3: on every run of the background job runner — success or a failure
raised at any step — the trace contains the removal of the temporary
working directory exactly once, and it is the runner's final action. -/
theorem c3_cleanup_always (env : RunEnv) :
    (_run_remote_render_job env).trace.count Action.rmtree = 1 ∧
    (_run_remote_render_job env).trace.getLast? = some Action.rmtree := by
  have hsh : ∃ e : List JEvent,
      (_run_remote_render_job env).trace = e.map Action.put ++ [Action.rmtree] := by
    unfold _run_remote_render_job
    split
    · exact runnerFinish_trace_shape _ _ _
    · split
      · exact runnerFinish_trace_shape _ _ _
      · exact runnerFinish_trace_shape _ _ _
  obtain ⟨evs, hsh⟩ := hsh
  rw [hsh]
  constructor
  · rw [List.count_append, count_rmtree_puts]
    rfl
  · simp

/-! ## C4 — every failure becomes exactly one terminal failure event -/

/-- C4: the runner (a total function here, mirroring the top-level
`except Exception` that lets nothing escape) pushes exactly one terminal
result event: the caught error's message on any failure, a success event
otherwise. -/
theorem c4_failure_event (env : RunEnv) :
    (∀ msg, (_run_remote_render_job env).raised = some msg →
      traceResults (_run_remote_render_job env).trace = [JEvent.resultError msg]) ∧
    ((_run_remote_render_job env).raised = none →
      ∃ j p, traceResults (_run_remote_render_job env).trace =
        [JEvent.resultSuccess j p]) := by
  unfold _run_remote_render_job
  split
  · constructor
    · intro msg h
      rw [runnerFinish_raised] at h
      rw [runnerFinish_results]
      simp only [Option.some.injEq] at h
      rw [h]
      rfl
    · intro h
      rw [runnerFinish_raised] at h
      exact nomatch h
  · rename_i hneg
    split
    · rename_i evs1 msg0 heq
      constructor
      · intro msg h
        rw [runnerFinish_raised] at h
        simp only [Option.some.injEq] at h
        rw [runnerFinish_results, h]
        have h1 : evs1.filter isResultEv = [] := by
          have := negotiation_logs env
          rw [heq] at this
          exact this
        rw [h1]
        rfl
      · intro h
        rw [runnerFinish_raised] at h
        exact nomatch h
    · rename_i evs1 gi heq
      have h1 : evs1.filter isResultEv = [] := by
        have := negotiation_logs env
        rw [heq] at this
        exact this
      constructor
      · intro msg h
        rw [runnerFinish_raised] at h
        rw [runnerFinish_results, h, List.filter_append, h1,
          (submission_spec env).2 msg h]
        rfl
      · intro h
        rw [runnerFinish_raised] at h
        obtain ⟨j, p, hs⟩ := (submission_spec env).1 h
        refine ⟨j, p, ?_⟩
        rw [runnerFinish_results, h, List.filter_append, h1, hs]
        rfl

/-- C4 witness: a run whose first step raises (the `requests` module is
missing) pushes exactly the matching failure event. -/
theorem c4_witness :
    (_run_remote_render_job
        { requestsAvailable := false, grantStatus := 200, grantText := ""
          grantBody := none, uploadStatus := 200, blendBytes := [1]
          renderStatus := 200, renderText := "", renderBody := none
          imageDecodeOk := true, writeOk := true, outputPathStr := ""
          fallbackDir := "/tmp" }).raised =
      some "Python module 'requests' is required. Install it in Blender's Python environment." ∧
    traceResults
        (_run_remote_render_job
          { requestsAvailable := false, grantStatus := 200, grantText := ""
            grantBody := none, uploadStatus := 200, blendBytes := [1]
            renderStatus := 200, renderText := "", renderBody := none
            imageDecodeOk := true, writeOk := true, outputPathStr := ""
            fallbackDir := "/tmp" }).trace =
      [JEvent.resultError
        "Python module 'requests' is required. Install it in Blender's Python environment."] :=
  ⟨rfl,
    (c4_failure_event
      { requestsAvailable := false, grantStatus := 200, grantText := ""
        grantBody := none, uploadStatus := 200, blendBytes := [1]
        renderStatus := 200, renderText := "", renderBody := none
        imageDecodeOk := true, writeOk := true, outputPathStr := ""
        fallbackDir := "/tmp" }).1
      "Python module 'requests' is required. Install it in Blender's Python environment."
      rfl⟩

/-! ## Drain lemmas (for C2 and C9) -/

/-- One drain appends exactly the queued log messages, in production
order. -/
theorem drain_log_entries (now : Nat) (evs : List QEvent) (st : Status)
    (done : Bool) :
    (drainLoop now evs st done).1.log_entries =
      st.log_entries ++ evs.filterMap (logEntryOf now) := by
  induction evs generalizing st done with
  | nil => simp [drainLoop]
  | cons ev rest ih =>
    cases ev with
    | log ts msg =>
      rw [drainLoop, ih]
      simp [_append_log_entry, logEntryOf]
    | result ts p =>
      cases hps : p.status == "success" with
      | true =>
        rw [drainLoop, ih]
        simp [hps, logEntryOf]
      | false =>
        rw [drainLoop, ih]
        simp [hps, logEntryOf]

/-- The done flag after a drain: set exactly when it was set before or a
result event was drained. -/
theorem drain_done_eq (now : Nat) (evs : List QEvent) (st : Status)
    (done : Bool) :
    (drainLoop now evs st done).2 = (done || evs.any QEvent.isResult) := by
  induction evs generalizing st done with
  | nil => simp [drainLoop]
  | cons ev rest ih =>
    cases ev with
    | log ts msg =>
      rw [drainLoop, ih]
      simp [QEvent.isResult]
    | result ts p =>
      cases hps : p.status == "success" with
      | true =>
        rw [drainLoop, ih]
        simp [hps, QEvent.isResult]
      | false =>
        rw [drainLoop, ih]
        simp [hps, QEvent.isResult]

/-- A drain clears `is_rendering` exactly when it drains a result event. -/
theorem drain_rendering (now : Nat) (evs : List QEvent) (st : Status)
    (done : Bool) :
    (drainLoop now evs st done).1.is_rendering =
      (st.is_rendering && !evs.any QEvent.isResult) := by
  induction evs generalizing st done with
  | nil => simp [drainLoop]
  | cons ev rest ih =>
    cases ev with
    | log ts msg =>
      rw [drainLoop, ih]
      simp [_append_log_entry, QEvent.isResult]
    | result ts p =>
      cases hps : p.status == "success" with
      | true =>
        rw [drainLoop, ih]
        simp [hps, QEvent.isResult]
      | false =>
        rw [drainLoop, ih]
        simp [hps, QEvent.isResult]

/-- A drain of a queue with no result event leaves every terminal field and
the done flag untouched. -/
theorem drain_no_result (now : Nat) (evs : List QEvent)
    (h : lastResult evs = none) (st : Status) (done : Bool) :
    (drainLoop now evs st done).1.finish_timestamp = st.finish_timestamp ∧
    (drainLoop now evs st done).1.last_error = st.last_error ∧
    (drainLoop now evs st done).1.last_job_id = st.last_job_id ∧
    (drainLoop now evs st done).1.last_output_path = st.last_output_path ∧
    (drainLoop now evs st done).1.is_rendering = st.is_rendering ∧
    (drainLoop now evs st done).2 = done := by
  induction evs generalizing st done with
  | nil => simp [drainLoop]
  | cons ev rest ih =>
    cases ev with
    | log ts msg =>
      rw [drainLoop]
      have h2 : lastResult rest = none := by simpa [lastResult] using h
      simpa [_append_log_entry] using ih h2 (_append_log_entry st msg ts now) done
    | result ts p =>
      exfalso
      revert h
      unfold lastResult
      cases lastResult rest <;> simp

/-- After a drain of a queue whose last result event is `(ts, p)`, the
status is terminal: `is_rendering` is cleared, the done flag is set, the
finish timestamp is `ts`, and the outcome fields record `p`. -/
theorem drain_last_result (now : Nat) (evs : List QEvent) (ts : Nat)
    (p : ResultPayload) (h : lastResult evs = some (ts, p)) (st : Status)
    (done : Bool) :
    (drainLoop now evs st done).1.is_rendering = false ∧
    (drainLoop now evs st done).2 = true ∧
    (drainLoop now evs st done).1.finish_timestamp = ts ∧
    ((p.status == "success") = true →
      (drainLoop now evs st done).1.last_error = "" ∧
      (drainLoop now evs st done).1.last_job_id = p.job_id.getD "" ∧
      (drainLoop now evs st done).1.last_output_path = p.output_path.getD "") ∧
    ((p.status == "success") = false →
      (drainLoop now evs st done).1.last_error = p.error.getD "Unknown error" ∧
      (drainLoop now evs st done).1.last_job_id = "" ∧
      (drainLoop now evs st done).1.last_output_path = "") := by
  induction evs generalizing st done with
  | nil => exact absurd h (by simp [lastResult])
  | cons ev rest ih =>
    cases ev with
    | log ts2 msg =>
      rw [drainLoop]
      exact ih (by simpa [lastResult] using h) _ _
    | result ts2 p2 =>
      cases hr : lastResult rest with
      | some r =>
        have h2 : lastResult rest = some (ts, p) := by
          rw [hr]
          have h3 := h
          unfold lastResult at h3
          rw [hr] at h3
          simpa using h3
        cases hps : p2.status == "success" with
        | true =>
          rw [drainLoop]
          exact ih h2 _ _
        | false =>
          rw [drainLoop]
          exact ih h2 _ _
      | none =>
        have h3 := h
        unfold lastResult at h3
        rw [hr] at h3
        simp only [Option.some.injEq, Prod.mk.injEq] at h3
        obtain ⟨hts, hp⟩ := h3
        subst hts
        subst hp
        cases hps : p2.status == "success" with
        | true =>
          rw [drainLoop]
          simp only [hps, if_true]
          refine ⟨?_, ?_, ?_, fun _ => ⟨?_, ?_, ?_⟩,
            fun hf => nomatch hf⟩
          · rw [(drain_no_result now rest hr _ _).2.2.2.2.1]
          · rw [(drain_no_result now rest hr _ _).2.2.2.2.2]
            simp
          · rw [(drain_no_result now rest hr _ _).1]
          · rw [(drain_no_result now rest hr _ _).2.1]
          · rw [(drain_no_result now rest hr _ _).2.2.1]
          · rw [(drain_no_result now rest hr _ _).2.2.2.1]
        | false =>
          rw [drainLoop]
          simp only [hps, Bool.false_eq_true, if_false]
          refine ⟨?_, ?_, ?_, fun ht => ht.elim,
            fun _ => ⟨?_, ?_, ?_⟩⟩
          · rw [(drain_no_result now rest hr _ _).2.2.2.2.1]
          · rw [(drain_no_result now rest hr _ _).2.2.2.2.2]
            simp
          · rw [(drain_no_result now rest hr _ _).1]
          · rw [(drain_no_result now rest hr _ _).2.1]
          · rw [(drain_no_result now rest hr _ _).2.2.1]
          · rw [(drain_no_result now rest hr _ _).2.2.2.1]

/-! ## C2 — one poller invocation drains the queue in FIFO order -/

/-- C2: one poller invocation drains every queued event: the log events
append to `log_entries` preserving production order, and once a result
event is drained the state is terminal — `is_rendering` cleared, the done
flag set, the finish timestamp recorded, and the error or job-id/output
fields recorded according to the (last) result payload. -/
theorem c2_poller_drain (now : Nat) (st : Status) (done : Bool)
    (evs : List QEvent) :
    (drainLoop now evs st done).1.log_entries =
      st.log_entries ++ evs.filterMap (logEntryOf now) ∧
    (∀ ts p, lastResult evs = some (ts, p) →
      (drainLoop now evs st done).1.is_rendering = false ∧
      (drainLoop now evs st done).2 = true ∧
      (drainLoop now evs st done).1.finish_timestamp = ts ∧
      ((p.status == "success") = true →
        (drainLoop now evs st done).1.last_error = "" ∧
        (drainLoop now evs st done).1.last_job_id = p.job_id.getD "" ∧
        (drainLoop now evs st done).1.last_output_path = p.output_path.getD "") ∧
      ((p.status == "success") = false →
        (drainLoop now evs st done).1.last_error = p.error.getD "Unknown error" ∧
        (drainLoop now evs st done).1.last_job_id = "" ∧
        (drainLoop now evs st done).1.last_output_path = "")) :=
  ⟨drain_log_entries now evs st done,
   fun ts p h => drain_last_result now evs ts p h st done⟩

/-- C2 witness (scenario D): draining 3 queued log events followed by a
success result event appends the 3 entries in their original order and
leaves the state terminal. -/
theorem c2_witness :
    (drainLoop 5
        [QEvent.log 1 "save", QEvent.log 2 "upload", QEvent.log 3 "render",
         QEvent.result 9
           { status := "success", job_id := some "job-1",
             output_path := some "/out/frame.png", error := none }]
        { Status.init with is_rendering := true } false).1.log_entries =
      ({ Status.init with is_rendering := true } : Status).log_entries ++
        ([QEvent.log 1 "save", QEvent.log 2 "upload", QEvent.log 3 "render",
          QEvent.result 9
            { status := "success", job_id := some "job-1",
              output_path := some "/out/frame.png", error := none }].filterMap
          (logEntryOf 5)) ∧
    ({ Status.init with is_rendering := true } : Status).log_entries ++
        ([QEvent.log 1 "save", QEvent.log 2 "upload", QEvent.log 3 "render",
          QEvent.result 9
            { status := "success", job_id := some "job-1",
              output_path := some "/out/frame.png", error := none }].filterMap
          (logEntryOf 5)) =
      [(1, "save"), (2, "upload"), (3, "render")] ∧
    (drainLoop 5
        [QEvent.log 1 "save", QEvent.log 2 "upload", QEvent.log 3 "render",
         QEvent.result 9
           { status := "success", job_id := some "job-1",
             output_path := some "/out/frame.png", error := none }]
        { Status.init with is_rendering := true } false).1.is_rendering = false ∧
    (drainLoop 5
        [QEvent.log 1 "save", QEvent.log 2 "upload", QEvent.log 3 "render",
         QEvent.result 9
           { status := "success", job_id := some "job-1",
             output_path := some "/out/frame.png", error := none }]
        { Status.init with is_rendering := true } false).1.finish_timestamp = 9 :=
  ⟨(c2_poller_drain 5 { Status.init with is_rendering := true } false
      [QEvent.log 1 "save", QEvent.log 2 "upload", QEvent.log 3 "render",
       QEvent.result 9
         { status := "success", job_id := some "job-1",
           output_path := some "/out/frame.png", error := none }]).1,
   rfl,
   ((c2_poller_drain 5 { Status.init with is_rendering := true } false
      [QEvent.log 1 "save", QEvent.log 2 "upload", QEvent.log 3 "render",
       QEvent.result 9
         { status := "success", job_id := some "job-1",
           output_path := some "/out/frame.png", error := none }]).2 9
      { status := "success", job_id := some "job-1",
        output_path := some "/out/frame.png", error := none } rfl).1,
   ((c2_poller_drain 5 { Status.init with is_rendering := true } false
      [QEvent.log 1 "save", QEvent.log 2 "upload", QEvent.log 3 "render",
       QEvent.result 9
         { status := "success", job_id := some "job-1",
           output_path := some "/out/frame.png", error := none }]).2 9
      { status := "success", job_id := some "job-1",
        output_path := some "/out/frame.png", error := none } rfl).2.2.1⟩

/-! ## C9 — per-owner exclusivity of submission -/

/-- The linking invariant of the registry: while the entry's done flag is
unset, the owning scene's status shows a render in progress. -/
def SysInv (s : SysState) : Prop :=
  ∀ e, s.entry = some e → e.done = false → s.status.is_rendering = true

/-- The initial state satisfies the invariant (no entry). -/
theorem sysInv_init : SysInv SysState.init := fun _e he => nomatch he

/-- Every system step preserves the invariant. -/
theorem sysInv_step {s s2 : SysState} (hinv : SysInv s) (hst : SysStep s s2) :
    SysInv s2 := by
  cases hst with
  | submit env now s =>
    unfold executeSubmit
    split
    · exact hinv
    · split
      · exact fun e he hd => hinv e he hd
      · split
        · exact fun e he hd => hinv e he hd
        · split
          · exact fun e he hd => hinv e he hd
          · split
            · exact fun e he hd => hinv e he hd
            · exact fun e he hd => rfl
  | workerPut s e ev h =>
    intro e2 he2 hd2
    injection he2 with h3
    subst h3
    exact hinv e h hd2
  | poll now s =>
    cases hse : s.entry with
    | none =>
      have hred : pollState now s = s := by
        unfold pollState
        rw [hse]
      rw [hred]
      exact hinv
    | some e =>
      have hred : pollState now s =
          (if (drainLoop now e.queue s.status e.done).2 = true then
            { s with status := (drainLoop now e.queue s.status e.done).1
                     entry := none }
          else
            { s with
              status := (drainLoop now e.queue s.status e.done).1
              entry :=
                some { queue := [], done := (drainLoop now e.queue s.status e.done).2 } }) := by
        unfold pollState
        rw [hse]
      rw [hred]
      split
      · exact fun e2 he2 hd2 => nomatch he2
      · rename_i hdone
        intro e2 he2 hd2
        have hde := drain_done_eq now e.queue s.status e.done
        have hfalse : (e.done || e.queue.any QEvent.isResult) = false := by
          rw [← hde]
          exact Bool.not_eq_true _ ▸ hdone
        have hedone : e.done = false := by
          cases hb : e.done
          · rfl
          · rw [hb] at hfalse
            exact absurd hfalse (by simp)
        have hany : e.queue.any QEvent.isResult = false := by
          cases hb : e.queue.any QEvent.isResult
          · rfl
          · rw [hb] at hfalse
            exact absurd hfalse (by simp)
        show (drainLoop now e.queue s.status e.done).1.is_rendering = true
        rw [drain_rendering, hany]
        simp [hinv e hse hedone]
  | sceneGone s => exact fun e2 he2 hd2 => nomatch he2

/-- Every reachable state satisfies the invariant. -/
theorem reachable_inv {s : SysState} (h : Reachable s) : SysInv s := by
  induction h with
  | refl => exact sysInv_init
  | tail hsteps hstep ih => exact sysInv_step ih hstep

/-- C9: in every reachable state holding a registry entry whose done flag
is unset, a second submission is rejected with the already-running outcome
and the state — status, registry entry and thread count — is left
completely unchanged: no worker is spawned and no entry is created or
replaced. -/
theorem c9_already_running (s : SysState) (hr : Reachable s) (e : JobEntry)
    (he : s.entry = some e) (hd : e.done = false) (env : SubmitEnv)
    (now : Nat) :
    executeSubmit env now s = (SubmitResult.alreadyRunning, s) := by
  have hir : s.status.is_rendering = true := reachable_inv hr e he hd
  unfold executeSubmit
  rw [if_pos hir]

/-- A well-configured submission environment for the C9 witness. -/
def submitEnvW : SubmitEnv :=
  { requestsOk := true, endpoint := "https://svc.example", engineIsCycles := true
    saveOk := true, saveErr := "" }

/-- The state right after a first successful submission. -/
def submittedState : SysState := (executeSubmit submitEnvW 3 SysState.init).2

/-- C9 witness: after one successful submission (a reachable state whose
entry is not done), a second submission is rejected and changes nothing. -/
theorem c9_witness :
    executeSubmit submitEnvW 9 submittedState =
      (SubmitResult.alreadyRunning, submittedState) :=
  c9_already_running submittedState
    (Relation.ReflTransGen.single (SysStep.submit submitEnvW 3 SysState.init))
    { queue := [], done := false } rfl rfl submitEnvW 9

/-! ## C1 — the upload negotiation builds exactly one input field -/

/-- A successful negotiation yields a blob reference or an inline payload,
never both. -/
theorem negotiation_ok_shape (env : RunEnv) (evs : List JEvent)
    (gi : Option String × Option String)
    (h : negotiationPhase env = (evs, Except.ok gi)) :
    gi.1 = none ∨ gi.2 = none := by
  unfold negotiationPhase at h
  revert h
  cases _request_upload_url env.grantStatus env.grantText env.grantBody with
  | failed m => intro h; exact absurd h (by simp)
  | notSupported =>
    intro h
    obtain ⟨-, h2⟩ := Prod.mk.injEq .. ▸ h
    injection h2 with h3
    rw [← h3]
    exact Or.inl rfl
  | granted u g =>
    cases _upload_blend_to_gcs env.blendBytes.length env.uploadStatus with
    | error m => intro h; exact absurd h (by simp)
    | ok u2 =>
      intro h
      obtain ⟨-, h2⟩ := Prod.mk.injEq .. ▸ h
      injection h2 with h3
      rw [← h3]
      exact Or.inr rfl

/-- C1 counterexample: the claim says that after a 404 from the grant
endpoint the request body contains the inline payload, and that exactly one
of the two fields is always set; but for an empty payload file the inline
base64 string is empty, hence falsy, and the body the runner builds carries
neither field. -/
theorem c1_counterexample :
    (_run_remote_render_job
        { requestsAvailable := true, grantStatus := 404, grantText := ""
          grantBody := none, uploadStatus := 200, blendBytes := []
          renderStatus := 200, renderText := "", renderBody := none
          imageDecodeOk := true, writeOk := true, outputPathStr := ""
          fallbackDir := "/tmp" }).builtPayload =
      some { blend_gcs_uri := none, blend_file := none } :=
  rfl

/-- C1 (amended): when the grant endpoint answers 404 and the payload file
is nonempty, the body carries the inline base64 payload and no blob
reference; when it answers 200 with a valid grant and the blob transfer
succeeds (status 200 or 201), the body carries the blob reference and no
inline payload; and no body ever carries both fields.  (For a 404 with an
empty payload file, the body carries neither field.) -/
theorem c1_negotiation_amended (env : RunEnv) :
    (env.requestsAvailable = true → env.grantStatus = 404 → env.blendBytes ≠ [] →
      (_run_remote_render_job env).builtPayload =
        some { blend_gcs_uri := none
               blend_file := some (b64encode env.blendBytes) }) ∧
    (∀ u g, env.requestsAvailable = true → env.grantStatus = 200 →
      env.grantBody = some (some u, some g) → u ≠ "" → g ≠ "" →
      (env.uploadStatus = 200 ∨ env.uploadStatus = 201) →
      (_run_remote_render_job env).builtPayload =
        some { blend_gcs_uri := some g, blend_file := none }) ∧
    (∀ p, (_run_remote_render_job env).builtPayload = some p →
      p.blend_gcs_uri = none ∨ p.blend_file = none) := by
  refine ⟨?_, ?_, ?_⟩
  · intro hreq h404 hbytes
    have hneg : negotiationPhase env =
        ([JEvent.log "Requesting upload URL from R-Farm service",
          JEvent.log "Service does not support upload URLs, embedding .blend file in request"],
         Except.ok (none, some (b64encode env.blendBytes))) := by
      unfold negotiationPhase
      rw [h404]
      rfl
    have hbne : (b64encode env.blendBytes == "") = false := by
      simpa using b64encode_ne_empty hbytes
    unfold _run_remote_render_job
    rw [hreq]
    simp only [Bool.not_true, Bool.false_eq_true, if_false, hneg,
      runnerFinish_payload, _build_payload, optTruthy, hbne]
    rfl
  · intro u g hreq h200 hbody hu hg hup
    have hgr : _request_upload_url env.grantStatus env.grantText env.grantBody =
        .granted u g := by
      rw [h200, hbody]
      unfold _request_upload_url
      simp [optTruthy, hu, hg]
    have hupl : _upload_blend_to_gcs env.blendBytes.length env.uploadStatus =
        .ok () := by
      rcases hup with h | h <;> rw [h] <;> rfl
    have hneg : negotiationPhase env =
        ([JEvent.log "Requesting upload URL from R-Farm service",
          JEvent.log "Upload URL received, uploading .blend file",
          JEvent.log "Blend file uploaded successfully"],
         Except.ok (some g, none)) := by
      unfold negotiationPhase
      rw [hgr, hupl]
      rfl
    have hgg : (g == "") = false := by simpa using hg
    unfold _run_remote_render_job
    rw [hreq]
    simp only [Bool.not_true, Bool.false_eq_true, if_false, hneg,
      runnerFinish_payload, _build_payload, optTruthy, hgg]
    rfl
  · intro p hp
    revert hp
    unfold _run_remote_render_job
    split
    · intro hp
      rw [runnerFinish_payload] at hp
      exact absurd hp (by simp)
    · split
      · intro hp
        rw [runnerFinish_payload] at hp
        exact absurd hp (by simp)
      · rename_i evs1 gi heq
        intro hp
        rw [runnerFinish_payload] at hp
        simp only [Option.some.injEq] at hp
        rw [← hp]
        rcases negotiation_ok_shape env evs1 gi heq with h1 | h2
        · left
          simp [_build_payload, h1, optTruthy]
        · right
          simp [_build_payload, h2, optTruthy]

/-- C1 witness: the two claimed negotiation outcomes at concrete inputs — a
404 with a one-byte payload yields an inline-only body, and a valid grant
with a 200 transfer yields a blob-only body. -/
theorem c1_witness :
    (_run_remote_render_job
        { requestsAvailable := true, grantStatus := 404, grantText := ""
          grantBody := none, uploadStatus := 200, blendBytes := [7]
          renderStatus := 200, renderText := "", renderBody := none
          imageDecodeOk := true, writeOk := true, outputPathStr := ""
          fallbackDir := "/tmp" }).builtPayload =
      some { blend_gcs_uri := none, blend_file := some (b64encode [7]) } ∧
    (_run_remote_render_job
        { requestsAvailable := true, grantStatus := 200, grantText := ""
          grantBody := some (some "https://signed", some "gs://b/o")
          uploadStatus := 201, blendBytes := [7]
          renderStatus := 200, renderText := "", renderBody := none
          imageDecodeOk := true, writeOk := true, outputPathStr := ""
          fallbackDir := "/tmp" }).builtPayload =
      some { blend_gcs_uri := some "gs://b/o", blend_file := none } :=
  ⟨(c1_negotiation_amended
      { requestsAvailable := true, grantStatus := 404, grantText := ""
        grantBody := none, uploadStatus := 200, blendBytes := [7]
        renderStatus := 200, renderText := "", renderBody := none
        imageDecodeOk := true, writeOk := true, outputPathStr := ""
        fallbackDir := "/tmp" }).1 rfl rfl (by simp),
   (c1_negotiation_amended
      { requestsAvailable := true, grantStatus := 200, grantText := ""
        grantBody := some (some "https://signed", some "gs://b/o")
        uploadStatus := 201, blendBytes := [7]
        renderStatus := 200, renderText := "", renderBody := none
        imageDecodeOk := true, writeOk := true, outputPathStr := ""
        fallbackDir := "/tmp" }).2.1 "https://signed" "gs://b/o" rfl rfl rfl
     (by simp) (by simp) (Or.inr rfl)⟩

/-! ## C10 — input resolution of the render endpoint -/

/-- `_run_blender` never fails with a 400: its failures are 500s or
uncaught errors. -/
theorem run_blender_no_400 (envB : BlenderEnv) (d : String) :
    _run_blender envB ≠ .error (.http 400 d) := by
  unfold _run_blender
  split
  · simp
  · split
    · simp
    · simp
    · split
      · simp
      · simp

/-- The dispatcher tail after input resolution never fails with the
missing-input 400. -/
theorem runBlenderAndRespond_ne_missing (env : ServerEnv) (fmt : Option String) :
    runBlenderAndRespond env fmt ≠
      .error (.http 400 "Missing blend file reference") := by
  unfold runBlenderAndRespond
  cases hrb : _run_blender env.blender with
  | error e =>
    intro h
    simp only [Except.error.injEq] at h
    exact run_blender_no_400 env.blender "Missing blend file reference" (by rw [hrb, h])
  | ok r => intro h; simp at h

/-- A URI parse failure is always the invalid-URI 400. -/
theorem parse_gcs_uri_error (uri : String) (e : ServerFailure)
    (h : _parse_gcs_uri uri = .error e) : e = .http 400 "Invalid GCS URI" := by
  revert h
  unfold _parse_gcs_uri
  split
  · intro h
    exact (Except.error.injEq _ _ ▸ h).symm
  · split
    · intro h
      exact (Except.error.injEq _ _ ▸ h).symm
    · split
      · intro h
        exact (Except.error.injEq _ _ ▸ h).symm
      · intro h
        simp at h

/-- A blob download failure is never the missing-input 400. -/
theorem download_ne_missing (uri : String) (env : ServerEnv) :
    _download_blend_from_gcs uri env ≠
      Except.error (ServerFailure.http 400 "Missing blend file reference") := by
  intro h
  unfold _download_blend_from_gcs at h
  cases hp : _parse_gcs_uri uri with
  | error e =>
    simp only [hp, Except.error.injEq] at h
    have := parse_gcs_uri_error uri e hp
    rw [h] at this
    simp at this
  | ok bb =>
    simp only [hp] at h
    split at h
    · simp at h
    · split at h
      · simp at h
      · simp at h

/-- C10 counterexample: the claim says the 400 error is returned only when
neither input field is present, but a request carrying a blob reference
that does not start with `gs://` is answered with a 400 even though the
field is present. -/
theorem c10_counterexample :
    render_endpoint (some "not-a-gs-uri") none none
        { blender :=
            { rc := 0, logs := "", parse := fun _ => JsonLine.malformed,
              pathExists := fun _ => false, readBytes := fun _ => [] },
          downloadApiOk := true, downloadProduces := true,
          inlineDecodeOk := true, jobId := "j" } =
      .error (.http 400 "Invalid GCS URI") :=
  rfl

/-- C10 (amended): when the blob-reference field is truthy the dispatcher
takes the blob path and the inline payload is silently ignored (the result
does not depend on it); the missing-input 400 is returned exactly when
neither field is truthy — though a present but malformed blob URI also
yields a (different) 400. -/
theorem c10_dispatch_amended (gcs file fmt : Option String) (env : ServerEnv) :
    (optTruthy gcs = true →
      render_endpoint gcs file fmt env = render_endpoint gcs none fmt env) ∧
    (render_endpoint gcs file fmt env =
        .error (.http 400 "Missing blend file reference") ↔
      optTruthy gcs = false ∧ optTruthy file = false) := by
  constructor
  · intro hg
    unfold render_endpoint
    rw [if_pos hg, if_pos hg]
  · constructor
    · intro h
      by_cases hg : optTruthy gcs = true
      · exfalso
        unfold render_endpoint at h
        rw [if_pos hg] at h
        cases hdl : _download_blend_from_gcs (gcs.getD "") env with
        | error e =>
          simp only [hdl, Except.error.injEq] at h
          exact download_ne_missing (gcs.getD "") env (by rw [hdl, h])
        | ok u =>
          simp only [hdl] at h
          exact runBlenderAndRespond_ne_missing env fmt h
      · by_cases hf : optTruthy file = true
        · exfalso
          unfold render_endpoint at h
          rw [if_neg (by simp [hg]), if_pos hf] at h
          revert h
          split
          · exact runBlenderAndRespond_ne_missing env fmt
          · intro h
            simp only [Except.error.injEq] at h
            exact nomatch h
        · exact ⟨by simpa using hg, by simpa using hf⟩
    · intro ⟨hg, hf⟩
      unfold render_endpoint
      rw [if_neg (by simp [hg]), if_neg (by simp [hf])]

/-- C10 witness: with both a valid blob reference and an inline payload
present, the response equals the response of the same request without the
inline payload, and it is not the missing-input 400. -/
theorem c10_witness :
    (optTruthy (some "gs://bucket/scene.blend") = true →
      render_endpoint (some "gs://bucket/scene.blend") (some "Zm9v") none
          { blender :=
              { rc := 1, logs := "x", parse := fun _ => JsonLine.malformed,
                pathExists := fun _ => false, readBytes := fun _ => [] },
            downloadApiOk := true, downloadProduces := true,
            inlineDecodeOk := true, jobId := "j" } =
        render_endpoint (some "gs://bucket/scene.blend") none none
          { blender :=
              { rc := 1, logs := "x", parse := fun _ => JsonLine.malformed,
                pathExists := fun _ => false, readBytes := fun _ => [] },
            downloadApiOk := true, downloadProduces := true,
            inlineDecodeOk := true, jobId := "j" }) ∧
    (render_endpoint (some "gs://bucket/scene.blend") (some "Zm9v") none
          { blender :=
              { rc := 1, logs := "x", parse := fun _ => JsonLine.malformed,
                pathExists := fun _ => false, readBytes := fun _ => [] },
            downloadApiOk := true, downloadProduces := true,
            inlineDecodeOk := true, jobId := "j" } =
        .error (.http 400 "Missing blend file reference") ↔
      optTruthy (some "gs://bucket/scene.blend") = false ∧
        optTruthy (some "Zm9v") = false) :=
  c10_dispatch_amended (some "gs://bucket/scene.blend") (some "Zm9v") none
    { blender :=
        { rc := 1, logs := "x", parse := fun _ => JsonLine.malformed,
          pathExists := fun _ => false, readBytes := fun _ => [] },
      downloadApiOk := true, downloadProduces := true,
      inlineDecodeOk := true, jobId := "j" }

end RFarm
